import Mathlib

/-!
Verification of the chainlink task-execution core: a shallow embedding of
`core/services/job/fetchers.go` (packages `job` and `pipeline`) and of the
`web` job-spec controller, with theorems settling the specification claims.
-/

/-- A JSON document, as produced by Go's `encoding/json` parse of the raw
    spec bytes.  Object fields are an ordered association list; Go's decoder
    gives the last occurrence of a duplicated key precedence. -/
inductive Json where
  | null
  | bool (b : Bool)
  | num  (n : Int)
  | str  (s : String)
  | arr  (elems : List Json)
  | obj  (fields : List (String × Json))

/-- Go `error` values as built by `errors.New` / `errors.Wrapf`: a message,
    optionally wrapping a cause.  `pkg/errors.WithStack` only attaches a call
    stack and changes neither message nor cause, so it is the identity here. -/
inductive GoError where
  | base (msg : String)
  | wrap (msg : String) (cause : GoError)
deriving DecidableEq, Repr

/-- `errors.Cause`: unwrap to the root error. -/
def GoError.cause : GoError → GoError
  | .base m   => .base m
  | .wrap _ c => c.cause

/-- All messages along the wrap chain, outermost first. -/
def GoError.messages : GoError → List String
  | .base m   => [m]
  | .wrap m c => m :: c.messages

/-! ## package pipeline: Result, HTTPTask, BridgeTask -/

/-- A `Result.Value` (`interface{}` in Go): the dynamic values flowing
    between pipeline stages. -/
inductive Value where
  | bytes (bs : List Nat)
  | str (s : String)
  | num (n : Int)
deriving DecidableEq, Repr

/-- `pipeline.Result`: the value/error union passed between stages. -/
structure Result where
  value : Option Value := none
  error : Option GoError := none
deriving DecidableEq, Repr

/-- `pipeline.ErrWrongInputCardinality`, wrapped by stages that receive the
    wrong number of inputs. -/
def ErrWrongInputCardinality : GoError := .base "wrong input cardinality"

/-- A value stored in an `HttpRequestData` map (`map[string]interface{}`):
    either a JSON value from the decoded spec or a generated `models.ID`. -/
inductive ReqVal where
  | json (j : Json)
  | uuid (n : Nat)

/-- `pipeline.HttpRequestData`, a `map[string]interface{}` keyed by field
    name, kept as an association list without duplicate keys. -/
abbrev HttpRequestData := List (String × ReqVal)

/-- Go map assignment `m[k] = v`: replace the binding of `k` if present,
    otherwise add it. -/
def HttpRequestData.set : HttpRequestData → String → ReqVal → HttpRequestData
  | [], k, v => [(k, v)]
  | (k0, v0) :: rest, k, v =>
      if k0 = k then (k, v) :: rest else (k0, v0) :: HttpRequestData.set rest k v

/-- Go map read `m[k]`. -/
def HttpRequestData.lookup : HttpRequestData → String → Option ReqVal
  | [], _ => none
  | (k0, v0) :: rest, k => if k0 = k then some v0 else HttpRequestData.lookup rest k

/-- `pipeline.HTTPTask`, as constructed by `BridgeTask.Run`: URL, method,
    request body and the unrestricted-network-access flag.  Its `Run` body is
    outside the given sources; its behaviour enters the theorems as an
    explicit `httpRun` collaborator function. -/
structure HTTPTask where
  URL : String
  Method : String
  RequestData : HttpRequestData
  AllowUnrestrictedNetworkAccess : Bool

/-- `pipeline.BridgeTask`: adapter name and declared request-data mapping.
    `RequestData = none` models a nil Go map, distinct from an empty one. -/
structure BridgeTask where
  Name : String
  RequestData : Option HttpRequestData

/-- `models.NewID`. Modelled from the spec: `models.NewID` (outside the given
    sources) generates a fresh unique identifier per invocation, "always
    freshly generated per invocation, never reused or cached"; modelled as a
    strictly increasing counter threaded through `Run`. -/
def NewID (idState : Nat) : ReqVal × Nat := (.uuid idState, idState + 1)

/-- The observable outcome of one `BridgeTask.Run` invocation: the returned
    `Result` (`none` models a Go panic), the post-state of the task (`Run`
    has a pointer receiver), the `HTTPTask`s delegated to, the bridge names
    looked up in the ORM, and the advanced ID-generator state. -/
structure BridgeRunOutcome where
  result : Option Result
  task : BridgeTask
  httpCalls : List HTTPTask
  ormCalls : List String
  nextIDState : Nat

/-- `BridgeTask.Run` from `pipeline/fetchers.go`, with its collaborators
    explicit: `orm` is `t.orm.FindBridge` composed with the URL extraction of
    `getBridgeURLFromName`, `httpRun` is `HTTPTask.Run`, and `idState` is the
    `models.NewID` generator state.  Mirrors the source line by line:
    cardinality check, bridge-URL resolution, nil-map initialization, `id`
    injection, delegation to an `HTTPTask` with method POST and unrestricted
    network access, then on success the logging type assertion
    `result.Value.([]byte)` (whose failure is a panic, modelled as `none`). -/
def BridgeTask.Run (t : BridgeTask) (orm : String → Except GoError String)
    (httpRun : HTTPTask → List Result → Result) (idState : Nat)
    (inputs : List Result) : BridgeRunOutcome :=
  if inputs.length > 0 then
    { result := some { error := some (.wrap "BridgeTask requires 0 inputs" ErrWrongInputCardinality) },
      task := t, httpCalls := [], ormCalls := [], nextIDState := idState }
  else
    match orm t.Name with
    | .error e =>
        { result := some { error := some e },
          task := t, httpCalls := [], ormCalls := [t.Name], nextIDState := idState }
    | .ok url =>
        let rd0 : HttpRequestData := t.RequestData.getD []
        let fresh := NewID idState
        let rd := rd0.set "id" fresh.1
        let t' : BridgeTask := { t with RequestData := some rd }
        let httpTask : HTTPTask :=
          { URL := url, Method := "POST", RequestData := rd,
            AllowUnrestrictedNetworkAccess := true }
        let res := httpRun httpTask inputs
        if res.error.isSome then
          { result := some res, task := t', httpCalls := [httpTask],
            ormCalls := [t.Name], nextIDState := fresh.2 }
        else
          match res.value with
          | some (.bytes _) =>
              { result := some res, task := t', httpCalls := [httpTask],
                ormCalls := [t.Name], nextIDState := fresh.2 }
          | _ =>
              { result := none, task := t', httpCalls := [httpTask],
                ormCalls := [t.Name], nextIDState := fresh.2 }

/-! ## package job: polymorphic fetcher decode -/

/-- `job.FetcherType` discriminator values. -/
def FetcherTypeBridge : String := "bridge"

/-- `job.FetcherTypeHttp`. -/
def FetcherTypeHttp : String := "http"

/-- `job.FetcherTypeMedian`. -/
def FetcherTypeMedian : String := "median"

/-- A decoded `job.Fetcher`.  The concrete variant structs (`BridgeFetcher`,
    `HttpFetcher`, `MedianFetcher`) are outside the given sources. Modelled
    from the spec: each variant is decoded from "the *entire* document" with
    base fields embedded and "unknown top-level fields ... permitted and
    ignored", so a decoded variant is represented by its tag together with
    the whole source document. -/
inductive Fetcher where
  | bridge (doc : Json)
  | http   (doc : Json)
  | median (doc : Json)

/-- Last-occurrence object-field lookup, matching Go's `encoding/json`
    treatment of duplicated keys. -/
def Json.lookupLast : List (String × Json) → String → Option Json
  | [], _ => none
  | (k0, v) :: rest, k =>
      match Json.lookupLast rest k with
      | some v' => some v'
      | none => if k0 = k then some v else none

/-- Pass 1 of the two-pass decode: `json.Unmarshal(bs, &header)` into
    `struct { Type FetcherType }`.  A JSON `null` (whole document or `type`
    field) leaves the zero value `""`; an absent `type` field likewise; a
    non-string `type` field or a non-object document is a decode error. -/
def decodeHeaderType (doc : Json) : Except GoError String :=
  match doc with
  | .obj fields =>
      match Json.lookupLast fields "type" with
      | none => .ok ""
      | some (.str s) => .ok s
      | some .null => .ok ""
      | some _ => .error (.base "json: cannot unmarshal value into Go struct field of type job.FetcherType")
  | .null => .ok ""
  | _ => .error (.base "json: cannot unmarshal value into Go value of type struct")

/-- `job.UnmarshalFetcherJSON`: decode the discriminator, then dispatch on
    it to decode the entire document into the matching variant; an
    unrecognized discriminator yields `errors.New("unknown fetcher type")`
    and a nil fetcher (the `Except.error` branch carries no fetcher). -/
def UnmarshalFetcherJSON (doc : Json) : Except GoError Fetcher :=
  match decodeHeaderType doc with
  | .error e => .error e
  | .ok t =>
      if t = FetcherTypeBridge then .ok (.bridge doc)
      else if t = FetcherTypeHttp then .ok (.http doc)
      else if t = FetcherTypeMedian then .ok (.median doc)
      else .error (.base "unknown fetcher type")

/-- `job.Fetchers`, the receiver collection of `UnmarshalJSON`. -/
abbrev Fetchers := List Fetcher

/-- The loop body of `Fetchers.UnmarshalJSON`: per element, decode and
    append to `*f`, returning the first decode error.  `acc` is the current
    contents of `*f`; on error the elements appended so far remain. -/
def unmarshalLoop (acc : Fetchers) : List Json → Option GoError × Fetchers
  | [] => (none, acc)
  | e :: rest =>
      match UnmarshalFetcherJSON e with
      | .error err => (some err, acc)
      | .ok fetcher => unmarshalLoop (acc ++ [fetcher]) rest

/-- `job.Fetchers.UnmarshalJSON` on an already-parsed document: unmarshal
    the outer array into `[]json.RawMessage` (a JSON `null` leaves the slice
    nil and succeeds; a non-array fails with `*f` untouched), then run the
    per-element loop.  Returns the error result together with the final
    contents of `*f`. -/
def Fetchers.UnmarshalJSON (f : Fetchers) (doc : Json) : Option GoError × Fetchers :=
  match doc with
  | .arr elems => unmarshalLoop f elems
  | .null => (none, f)
  | _ => (some (.base "json: cannot unmarshal value into Go value of type RawMessage slice"), f)

/-! ## package job: notifiee propagation -/

/-- The notification sink; its identity is all the propagation theorems
    need. -/
abbrev Notifiee := Nat

/-- A pipeline transformer stage.  The concrete `Transformer` type is
    outside the given sources. Modelled from the spec: a transformer carries
    a notifiee slot and may own further transformers, and the sink is
    propagated by "walking the owned transformer sequence recursively and
    recording the sink reference". -/
inductive Transformer where
  | mk (id : Nat) (notifiee : Option Notifiee) (owned : List Transformer)

mutual

/-- `Transformer.SetNotifiee`, modelled from the spec: record the sink on
    this stage and recurse into the owned transformers. -/
def Transformer.SetNotifiee (n : Notifiee) : Transformer → Transformer
  | .mk i _ ts => .mk i (some n) (Transformer.SetNotifieeList n ts)

/-- Sink propagation over a transformer sequence, in declaration order. -/
def Transformer.SetNotifieeList (n : Notifiee) : List Transformer → List Transformer
  | [] => []
  | t :: ts => Transformer.SetNotifiee n t :: Transformer.SetNotifieeList n ts

end

/-- `job.BaseFetcher`: identity, owned transformers, the mutually exclusive
    owning-job references, and the notifiee slot set post-decode. -/
structure BaseFetcher where
  ID : Nat
  Transformers : List Transformer
  OffchainReportingJobID : Nat
  FluxMonitorJobID : Nat
  DirectRequestJobID : Nat
  notifiee : Option Notifiee

/-- `job.BaseFetcher.GetID`. -/
def BaseFetcher.GetID (f : BaseFetcher) : Nat := f.ID

/-- `job.BaseFetcher.SetNotifiee` from `fetchers.go`: set `f.notifiee`, then
    `transformer.SetNotifiee(n)` for each owned transformer in order. -/
def BaseFetcher.SetNotifiee (f : BaseFetcher) (n : Notifiee) : BaseFetcher :=
  { f with notifiee := some n,
           Transformers := Transformer.SetNotifieeList n f.Transformers }

mutual

/-- Number of stages in a transformer tree (the stage itself plus everything
    it transitively owns). -/
def Transformer.stageCount : Transformer → Nat
  | .mk _ _ ts => 1 + Transformer.stageCountList ts

/-- Number of stages in a transformer forest. -/
def Transformer.stageCountList : List Transformer → Nat
  | [] => 0
  | t :: ts => Transformer.stageCount t + Transformer.stageCountList ts

end

mutual

/-- Whether every stage of a transformer tree holds the sink `n`. -/
def Transformer.allNotified (n : Notifiee) : Transformer → Bool
  | .mk _ nf ts => (nf = some n) && Transformer.allNotifiedList n ts

/-- Whether every stage of a transformer forest holds the sink `n`. -/
def Transformer.allNotifiedList (n : Notifiee) : List Transformer → Bool
  | [] => true
  | t :: ts => Transformer.allNotified n t && Transformer.allNotifiedList n ts

end

mutual

/-- Number of stages of a transformer tree holding the sink `n`. -/
def Transformer.notifiedCount (n : Notifiee) : Transformer → Nat
  | .mk _ nf ts => (if nf = some n then 1 else 0) + Transformer.notifiedCountList n ts

/-- Number of stages of a transformer forest holding the sink `n`. -/
def Transformer.notifiedCountList (n : Notifiee) : List Transformer → Nat
  | [] => 0
  | t :: ts => Transformer.notifiedCount n t + Transformer.notifiedCountList n ts

end

mutual

/-- Preorder list of stage identifiers of a transformer tree: the order in
    which the propagation walk visits the stages. -/
def Transformer.stageIDs : Transformer → List Nat
  | .mk i _ ts => i :: Transformer.stageIDsList ts

/-- Preorder stage identifiers of a transformer forest. -/
def Transformer.stageIDsList : List Transformer → List Nat
  | [] => []
  | t :: ts => Transformer.stageIDs t ++ Transformer.stageIDsList ts

end

/-! ## package web: JobSpecsController -/

/-- The feature-flag configuration read through `jsc.App.GetStore().Config`:
    the global dev-mode override and the per-feature flags. -/
structure Config where
  Dev : Bool
  FeatureFluxMonitor : Bool
  FeatureOffchainReporting : Bool

/-- `models.Initiator` trigger kinds, as far as the gate consults them. -/
inductive InitiatorType where
  | fluxMonitor
  | runLog
  | cron
deriving DecidableEq

/-- A V1 `models.JobSpec` as consulted by the controller: its initiators. -/
structure JobSpec where
  Initiators : List InitiatorType

/-- `models.JobSpec.InitiatorsFor`: the initiators of the given kind. -/
def JobSpec.InitiatorsFor (js : JobSpec) (t : InitiatorType) : List InitiatorType :=
  js.Initiators.filter (fun i => i = t)

/-- `JobSpecsController.requireImplemented`: with dev mode off and the
    flux-monitor flag off, a spec with any flux-monitor initiator is
    rejected. -/
def requireImplemented (cfg : Config) (js : JobSpec) : Option GoError :=
  if !cfg.Dev && !cfg.FeatureFluxMonitor then
    if (js.InitiatorsFor .fluxMonitor).length > 0 then
      some (.base "The Flux Monitor feature is disabled by configuration")
    else none
  else none

/-- `JobSpecsController.getAndCheckJobSpec`: JSON bind (400 on failure),
    then the feature gate (501 on failure), then validation (400 on
    failure).  `bindResult` stands for `c.ShouldBindJSON` composed with
    `models.NewJobFromRequest`, and `validate` for `services.ValidateJob`
    against the store; both live outside the given sources.  Returns
    `(js, httpStatus, err)` exactly as the source does, with
    `httpStatus` meaningful only on error. -/
def getAndCheckJobSpec (cfg : Config) (bindResult : Except GoError JobSpec)
    (validate : JobSpec → Option GoError) : JobSpec × Nat × Option GoError :=
  match bindResult with
  | .error e => (⟨[]⟩, 400, some e)
  | .ok js =>
      match requireImplemented cfg js with
      | some e => (⟨[]⟩, 501, some e)
      | none =>
          match validate js with
          | some e => (⟨[]⟩, 400, some e)
          | none => (js, 0, none)

/-- The outward HTTP outcome of a controller handler: `jsonAPIError` with a
    status and error, or a success response with a status (204 carries no
    body). -/
inductive ControllerResponse where
  | apiError (status : Nat) (err : GoError)
  | success (status : Nat)
deriving DecidableEq

/-- `orm.ErrorNotFound`, the store's sentinel for a missing record. -/
def ErrorNotFound : GoError := .base "record not found"

/-- `JobSpecsController.Destroy` past routing: `parseResult` stands for
    `models.NewIDFromString` on the `:SpecID` parameter (422 on failure),
    `archiveResult` for `jsc.App.ArchiveJob(id)`.  A store error whose
    `errors.Cause` is `orm.ErrorNotFound` maps to 404, any other store error
    to 500, success to a bodiless 204. -/
def Destroy (parseResult : Except GoError Nat)
    (archiveResult : Nat → Option GoError) : ControllerResponse :=
  match parseResult with
  | .error e => .apiError 422 e
  | .ok id =>
      match archiveResult id with
      | some e =>
          if e.cause = ErrorNotFound then .apiError 404 (.base "JobSpec not found")
          else .apiError 500 e
      | none => .success 204

/-- `JobSpecsController.DestroyV2` past routing: `parseResult` stands for
    `strconv.Atoi` on the `:SpecID` parameter (422 on failure),
    `deleteResult` for `jsc.App.DeleteJobV2`.  Same status mapping as
    `Destroy`. -/
def DestroyV2 (parseResult : Except GoError Int)
    (deleteResult : Int → Option GoError) : ControllerResponse :=
  match parseResult with
  | .error e => .apiError 422 e
  | .ok id =>
      match deleteResult id with
      | some e =>
          if e.cause = ErrorNotFound then .apiError 404 (.base "JobSpec not found")
          else .apiError 500 e
      | none => .success 204

/-- `jsc.App.ArchiveJob` against a store holding the V1 job IDs `store`.
    Modelled from the spec: the job store's `Archive(ID) -> error` has
    "not-found distinguished", returning `orm.ErrorNotFound` exactly when
    the ID is absent and succeeding when present. -/
def ArchiveJob (store : List Nat) (id : Nat) : Option GoError :=
  if id ∈ store then none else some ErrorNotFound

/-- `jsc.App.DeleteJobV2` against a store holding the V2 job IDs `store`.
    Modelled from the spec: the job store's `Delete(ID) -> error` has
    "not-found distinguished", returning `orm.ErrorNotFound` exactly when
    the ID is absent and succeeding when present. -/
def DeleteJobV2 (store : List Int) (id : Int) : Option GoError :=
  if id ∈ store then none else some ErrorNotFound

/-! ## Auxiliary observations used by the theorems -/

/-- The `id` entry of the body of the (unique) delegated HTTP call of a
    `BridgeTask.Run` invocation, if any. -/
def BridgeRunOutcome.injectedID (o : BridgeRunOutcome) : Option ReqVal :=
  match o.httpCalls with
  | [ht] => ht.RequestData.lookup "id"
  | _ => none

/-- The fetchers decoded from the elements strictly before the first
    failing element (all elements when none fails). -/
def decodeLeading (elems : List Json) : Fetchers :=
  (elems.takeWhile (fun e => (UnmarshalFetcherJSON e).toOption.isSome)).filterMap
    (fun e => (UnmarshalFetcherJSON e).toOption)

/-- The decode error of the first failing element, if any. -/
def firstDecodeError (elems : List Json) : Option GoError :=
  match elems.dropWhile (fun e => (UnmarshalFetcherJSON e).toOption.isSome) with
  | [] => none
  | e :: _ =>
      match UnmarshalFetcherJSON e with
      | .error err => some err
      | .ok _ => none

/-- A bridge registry that resolves every name, for concrete witnesses. -/
def ormOK : String → Except GoError String := fun _ => .ok "http://bridge.example/path"

/-- An HTTP stage that succeeds with a byte answer, for concrete
    witnesses. -/
def httpOK : HTTPTask → List Result → Result :=
  fun _ _ => { value := some (.bytes [42]), error := none }

/-- The HTTP stage that `BridgeTask.Run` constructs once the bridge URL of
    task `t` resolved to `url` with generator state `s`. -/
def htOf (t : BridgeTask) (url : String) (s : Nat) : HTTPTask :=
  { URL := url, Method := "POST",
    RequestData := (t.RequestData.getD []).set "id" (.uuid s),
    AllowUnrestrictedNetworkAccess := true }

/-! ## Helper lemmas -/

theorem HttpRequestData.lookup_set_self (m : HttpRequestData) (k : String) (v : ReqVal) :
    (m.set k v).lookup k = some v := by
  induction m with
  | nil => simp [HttpRequestData.set, HttpRequestData.lookup]
  | cons p rest ih =>
      by_cases h : p.1 = k
      · simp [HttpRequestData.set, HttpRequestData.lookup, h]
      · simp [HttpRequestData.set, HttpRequestData.lookup, h, ih]

theorem HttpRequestData.lookup_set_ne (m : HttpRequestData) (k k' : String) (v : ReqVal)
    (h : k' ≠ k) : (m.set k v).lookup k' = m.lookup k' := by
  have hkk : k ≠ k' := Ne.symm h
  induction m with
  | nil => simp [HttpRequestData.set, HttpRequestData.lookup, hkk]
  | cons p rest ih =>
      by_cases hp : p.1 = k
      · simp [HttpRequestData.set, HttpRequestData.lookup, hp, hkk]
      · simp [HttpRequestData.set, HttpRequestData.lookup, hp, ih]

/-- Characterization of `BridgeTask.Run` on the zero-input path once the
    bridge URL resolves: the single delegated HTTP stage, the mutated task,
    the advanced generator state and the single registry lookup. -/
theorem bridgeRun_ok_spec (t : BridgeTask) (orm : String → Except GoError String)
    (httpRun : HTTPTask → List Result → Result) (s : Nat) (url : String)
    (h : orm t.Name = .ok url) :
    (t.Run orm httpRun s []).httpCalls =
      [{ URL := url, Method := "POST",
         RequestData := (t.RequestData.getD []).set "id" (.uuid s),
         AllowUnrestrictedNetworkAccess := true }] ∧
    (t.Run orm httpRun s []).task =
      { t with RequestData := some ((t.RequestData.getD []).set "id" (.uuid s)) } ∧
    (t.Run orm httpRun s []).nextIDState = s + 1 ∧
    (t.Run orm httpRun s []).ormCalls = [t.Name] := by
  unfold BridgeTask.Run NewID
  simp [h]
  split <;> [skip; split] <;> simp

/-! ## Claim theorems: BridgeTask -/

/-- C1: on every zero-input `BridgeTask.Run` invocation that delegates, the
    request-data mapping is initialized if nil, the key `id` is set to the
    identifier freshly generated for that invocation so the outgoing body
    always contains `id`, and a second successive invocation with the same
    configuration injects a different `id` value. -/
theorem bridgeTask_run_fresh_id (t : BridgeTask) (orm : String → Except GoError String)
    (httpRun : HTTPTask → List Result → Result) (s : Nat) (url : String)
    (h : orm t.Name = .ok url) :
    (t.Run orm httpRun s []).injectedID = some (.uuid s) ∧
    (t.RequestData = none →
      ∀ ht ∈ (t.Run orm httpRun s []).httpCalls,
        ht.RequestData = [("id", ReqVal.uuid s)]) ∧
    ((t.Run orm httpRun s []).task.Run orm httpRun (t.Run orm httpRun s []).nextIDState []).injectedID
      = some (.uuid (s + 1)) ∧
    ReqVal.uuid s ≠ ReqVal.uuid (s + 1) := by
  obtain ⟨hcalls, htask, hnext, -⟩ := bridgeRun_ok_spec t orm httpRun s url h
  have hname : (t.Run orm httpRun s []).task.Name = t.Name := by rw [htask]
  have h2 : orm (t.Run orm httpRun s []).task.Name = .ok url := by rw [hname]; exact h
  obtain ⟨hcalls2, -, -, -⟩ :=
    bridgeRun_ok_spec ((t.Run orm httpRun s []).task) orm httpRun
      ((t.Run orm httpRun s []).nextIDState) url h2
  refine ⟨?_, ?_, ?_, ?_⟩
  · rw [BridgeRunOutcome.injectedID, hcalls]
    exact HttpRequestData.lookup_set_self _ _ _
  · intro hnil ht hmem
    rw [hcalls] at hmem
    simp at hmem
    rw [hmem, hnil]
    rfl
  · rw [BridgeRunOutcome.injectedID, hcalls2, hnext]
    exact HttpRequestData.lookup_set_self _ _ _
  · intro hc
    cases hc

/-- C1 witness: concrete zero-input invocation with a resolving registry. -/
theorem bridgeTask_run_fresh_id_witness :
    ormOK (BridgeTask.mk "b" none).Name = .ok "http://bridge.example/path" ∧
    ((BridgeTask.mk "b" none).Run ormOK httpOK 0 []).injectedID = some (.uuid 0) :=
  ⟨rfl, (bridgeTask_run_fresh_id (BridgeTask.mk "b" none) ormOK httpOK 0 _ rfl).1⟩

/-- C2: `BridgeTask.Run` with one or more inputs returns a `Result` whose
    error wraps `ErrWrongInputCardinality`, with no registry lookup and no
    HTTP call; with the empty input list it proceeds past the cardinality
    check to the bridge-URL resolution. -/
theorem bridgeTask_run_cardinality (t : BridgeTask) (orm : String → Except GoError String)
    (httpRun : HTTPTask → List Result → Result) (s : Nat) :
    (∀ inputs : List Result, 1 ≤ inputs.length →
      (t.Run orm httpRun s inputs).result =
        some { value := none,
               error := some (.wrap "BridgeTask requires 0 inputs" ErrWrongInputCardinality) } ∧
      (t.Run orm httpRun s inputs).ormCalls = [] ∧
      (t.Run orm httpRun s inputs).httpCalls = []) ∧
    (t.Run orm httpRun s []).ormCalls = [t.Name] := by
  constructor
  · intro inputs hlen
    have hpos : inputs.length > 0 := hlen
    unfold BridgeTask.Run
    simp [hpos]
  · cases h : orm t.Name with
    | error e => unfold BridgeTask.Run; simp [h]
    | ok url => exact (bridgeRun_ok_spec t orm httpRun s url h).2.2.2

/-- C2 witness: one concrete input triggers the cardinality error. -/
theorem bridgeTask_run_cardinality_witness :
    1 ≤ [({} : Result)].length ∧
    ((BridgeTask.mk "b" none).Run ormOK httpOK 0 [{}]).result =
      some { value := none,
             error := some (.wrap "BridgeTask requires 0 inputs" ErrWrongInputCardinality) } :=
  ⟨by decide,
   ((bridgeTask_run_cardinality (BridgeTask.mk "b" none) ormOK httpOK 0).1 [{}]
     (by decide)).1⟩

/-- Characterization of the `result` of a zero-input `BridgeTask.Run` once
    the bridge URL resolves: the delegated stage's `Result` is passed
    through, except that a successful non-byte value panics (`none`). -/
theorem bridgeRun_ok_result (t : BridgeTask) (orm : String → Except GoError String)
    (httpRun : HTTPTask → List Result → Result) (s : Nat) (url : String)
    (h : orm t.Name = .ok url) :
    (t.Run orm httpRun s []).result =
      (if (httpRun (htOf t url s) []).error.isSome then some (httpRun (htOf t url s) [])
       else
         match (httpRun (htOf t url s) []).value with
         | some (.bytes _) => some (httpRun (htOf t url s) [])
         | _ => none) := by
  unfold BridgeTask.Run NewID htOf
  simp [h]
  split
  · rfl
  · split <;> rfl

/-- C7: past the cardinality check and URL resolution, the network call is
    delegated to an HTTP stage built with method POST, the resolved URL, the
    augmented body and the unrestricted-network-access flag set to true;
    when that stage succeeds (per the spec its successful value is a byte
    slice), `BridgeTask.Run` returns the HTTP stage's `Result` unchanged. -/
theorem bridgeTask_run_delegates (t : BridgeTask) (orm : String → Except GoError String)
    (httpRun : HTTPTask → List Result → Result) (s : Nat) (url : String)
    (h : orm t.Name = .ok url) :
    (t.Run orm httpRun s []).httpCalls =
      [{ URL := url, Method := "POST",
         RequestData := (t.RequestData.getD []).set "id" (.uuid s),
         AllowUnrestrictedNetworkAccess := true }] ∧
    (∀ ht ∈ (t.Run orm httpRun s []).httpCalls,
      (httpRun ht []).error = none →
      (∃ bs, (httpRun ht []).value = some (.bytes bs)) →
      (t.Run orm httpRun s []).result = some (httpRun ht [])) := by
  obtain ⟨hcalls, -, -, -⟩ := bridgeRun_ok_spec t orm httpRun s url h
  refine ⟨hcalls, ?_⟩
  intro ht hmem herr ⟨bs, hval⟩
  rw [hcalls] at hmem
  simp at hmem
  subst hmem
  unfold BridgeTask.Run NewID
  simp only [List.length_nil, gt_iff_lt, Nat.lt_irrefl, if_false, h]
  simp [herr, hval]

/-- C7 witness: a concrete delegation whose HTTP stage succeeds with a byte
    answer, returned unchanged. -/
theorem bridgeTask_run_delegates_witness :
    ormOK (BridgeTask.mk "b" none).Name = .ok "http://bridge.example/path" ∧
    ((BridgeTask.mk "b" none).Run ormOK httpOK 0 []).result =
      some { value := some (.bytes [42]), error := none } := by
  refine ⟨rfl, ?_⟩
  have h := (bridgeTask_run_delegates (BridgeTask.mk "b" none) ormOK httpOK 0
    "http://bridge.example/path" rfl).2
    { URL := "http://bridge.example/path", Method := "POST",
      RequestData := [("id", .uuid 0)],
      AllowUnrestrictedNetworkAccess := true }
  rw [h (by rw [(bridgeTask_run_delegates (BridgeTask.mk "b" none) ormOK httpOK 0
        "http://bridge.example/path" rfl).1]; simp; rfl) rfl ⟨[42], rfl⟩]
  rfl

/-- C10: `BridgeTask.Run` is total and never panics: under the spec's
    contract that the delegated HTTP stage's successful `Result` always
    carries a byte-slice value, the logging type assertion always succeeds
    and `Run` returns a `Result` for every input list and every HTTP-stage
    outcome (`result` is never the panic marker `none`). -/
theorem bridgeTask_run_no_panic (t : BridgeTask) (orm : String → Except GoError String)
    (httpRun : HTTPTask → List Result → Result) (s : Nat) (inputs : List Result)
    (hcontract : ∀ ht ins, (httpRun ht ins).error = none →
      ∃ bs, (httpRun ht ins).value = some (.bytes bs)) :
    (t.Run orm httpRun s inputs).result.isSome := by
  by_cases hlen : inputs.length > 0
  · unfold BridgeTask.Run
    simp [hlen]
  · have hnil : inputs = [] := List.length_eq_zero.mp (Nat.eq_zero_of_not_pos hlen)
    subst hnil
    cases h : orm t.Name with
    | error e => unfold BridgeTask.Run; simp [h]
    | ok url =>
        rw [bridgeRun_ok_result t orm httpRun s url h]
        by_cases herr : (httpRun (htOf t url s) []).error.isSome
        · simp [herr]
        · have herr' : (httpRun (htOf t url s) []).error = none := by
            cases hE : (httpRun (htOf t url s) []).error
            · rfl
            · rw [hE] at herr; simp at herr
          obtain ⟨bs, hval⟩ := hcontract (htOf t url s) [] herr'
          simp [herr, hval]

/-- C10 witness: a concrete run under the byte-valued HTTP stage. -/
theorem bridgeTask_run_no_panic_witness :
    (∀ ht ins, (httpOK ht ins).error = none →
      ∃ bs, (httpOK ht ins).value = some (.bytes bs)) ∧
    ((BridgeTask.mk "b" none).Run ormOK httpOK 0 []).result.isSome :=
  ⟨fun _ _ _ => ⟨[42], rfl⟩,
   bridgeTask_run_no_panic (BridgeTask.mk "b" none) ormOK httpOK 0 []
     (fun _ _ _ => ⟨[42], rfl⟩)⟩

/-- C8 counterexample: `BridgeTask.Run` has a pointer receiver and mutates
    the task: starting from a nil `RequestData`, after a successful run the
    task's `RequestData` holds the injected `id` entry, so the declared
    request-data mapping is not the same after `Run` returns. -/
theorem bridgeTask_run_mutates_requestData :
    ((BridgeTask.mk "b" none).Run ormOK httpOK 0 []).task.RequestData ≠
      (BridgeTask.mk "b" none).RequestData := by
  have hrun : ((BridgeTask.mk "b" none).Run ormOK httpOK 0 []).task.RequestData =
      some [("id", ReqVal.uuid 0)] := rfl
  rw [hrun]
  simp

/-- C8 amended: `Run` preserves the task's `Name` and every `RequestData`
    entry at a key other than `"id"`; the only post-decode mutation is the
    injected `"id"` entry (and the nil-map initialization carrying it). -/
theorem bridgeTask_run_preserves_config (t : BridgeTask) (orm : String → Except GoError String)
    (httpRun : HTTPTask → List Result → Result) (s : Nat) (inputs : List Result) :
    (t.Run orm httpRun s inputs).task.Name = t.Name ∧
    (∀ k, k ≠ "id" →
      ((t.Run orm httpRun s inputs).task.RequestData.getD []).lookup k =
        (t.RequestData.getD []).lookup k) := by
  by_cases hlen : inputs.length > 0
  · unfold BridgeTask.Run
    simp [hlen]
  · have hnil : inputs = [] := List.length_eq_zero.mp (Nat.eq_zero_of_not_pos hlen)
    subst hnil
    cases h : orm t.Name with
    | error e =>
        unfold BridgeTask.Run
        simp [h]
    | ok url =>
        obtain ⟨-, htask, -, -⟩ := bridgeRun_ok_spec t orm httpRun s url h
        rw [htask]
        exact ⟨rfl, fun k hk => HttpRequestData.lookup_set_ne _ _ _ _ hk⟩

/-- C8 amended witness: a concrete run preserving a non-`id` entry. -/
theorem bridgeTask_run_preserves_config_witness :
    ("x" : String) ≠ "id" ∧
    (((BridgeTask.mk "b" (some [("x", .json .null)])).Run ormOK httpOK 0 []).task.RequestData.getD []).lookup "x" =
      ((BridgeTask.mk "b" (some [("x", .json .null)])).RequestData.getD []).lookup "x" :=
  ⟨by decide,
   (bridgeTask_run_preserves_config (BridgeTask.mk "b" (some [("x", .json .null)]))
     ormOK httpOK 0 []).2 "x" (by decide)⟩

/-! ## Claim theorems: fetcher decode -/

theorem unmarshalLoop_spec (elems : List Json) (acc : Fetchers) :
    (unmarshalLoop acc elems).2 = acc ++ decodeLeading elems ∧
    (unmarshalLoop acc elems).1 = firstDecodeError elems := by
  induction elems generalizing acc with
  | nil => simp [unmarshalLoop, decodeLeading, firstDecodeError]
  | cons e rest ih =>
      cases h : UnmarshalFetcherJSON e with
      | error err =>
          simp [unmarshalLoop, decodeLeading, firstDecodeError, h, Except.toOption]
      | ok fetcher =>
          simp [unmarshalLoop, decodeLeading, firstDecodeError, h, Except.toOption, ih]

/-- C3 counterexample: decoding `[{"type":"http"}, 5]` into an empty
    receiver fails on the second element, yet the receiver is not left
    unchanged: the fetcher decoded from the first element has been appended
    to it (length 1 instead of 0). -/
theorem fetchers_unmarshal_partial_counterexample :
    (Fetchers.UnmarshalJSON [] (.arr [.obj [("type", .str "http")], .num 5])).1.isSome = true ∧
    (Fetchers.UnmarshalJSON [] (.arr [.obj [("type", .str "http")], .num 5])).2.length = 1 :=
  ⟨rfl, rfl⟩

/-- C3 amended: when some element fails to decode, `Fetchers.UnmarshalJSON`
    returns the first failing element's error and decodes nothing at or
    after it (fail-fast), but the receiver is not rolled back: it ends as
    the original contents plus the fetchers decoded from the elements
    preceding the first failure. -/
theorem fetchers_unmarshal_failfast (f : Fetchers) (elems : List Json) :
    (Fetchers.UnmarshalJSON f (.arr elems)).1 = firstDecodeError elems ∧
    (Fetchers.UnmarshalJSON f (.arr elems)).2 = f ++ decodeLeading elems := by
  have h := unmarshalLoop_spec elems f
  exact ⟨h.2, h.1⟩

/-- C4 amended: a stage document whose discriminator decodes to none of
    `bridge`, `http`, `median` makes `UnmarshalFetcherJSON` fail with the
    constant `unknown fetcher type` error and no fetcher; the error is not
    annotated with the original document. -/
theorem unmarshalFetcher_unknown_type (doc : Json) (t : String)
    (h : decodeHeaderType doc = .ok t)
    (hb : t ≠ FetcherTypeBridge) (hh : t ≠ FetcherTypeHttp) (hm : t ≠ FetcherTypeMedian) :
    UnmarshalFetcherJSON doc = .error (.base "unknown fetcher type") := by
  unfold UnmarshalFetcherJSON
  rw [h]
  simp [hb, hh, hm]

/-- C4 witness: the document `{"type":"nonsense"}`. -/
theorem unmarshalFetcher_unknown_type_witness :
    decodeHeaderType (.obj [("type", .str "nonsense")]) = .ok "nonsense" ∧
    UnmarshalFetcherJSON (.obj [("type", .str "nonsense")]) =
      .error (.base "unknown fetcher type") :=
  ⟨rfl, unmarshalFetcher_unknown_type _ "nonsense" rfl (by decide) (by decide) (by decide)⟩

/-- C4 counterexample: two distinct unknown-type documents produce the very
    same error, whose only message is the fixed string `unknown fetcher
    type`; the error therefore carries no annotation of the original
    document, refuting that part of the claim. -/
theorem unmarshalFetcher_no_document_annotation :
    UnmarshalFetcherJSON (.obj [("type", .str "nonsense")]) =
      .error (.base "unknown fetcher type") ∧
    UnmarshalFetcherJSON (.obj [("type", .str "garbage"), ("url", .str "http://x.example")]) =
      .error (.base "unknown fetcher type") ∧
    (GoError.base "unknown fetcher type").messages = ["unknown fetcher type"] :=
  ⟨rfl, rfl, rfl⟩

/-! ## Claim theorems: notifiee propagation -/

mutual

theorem setNotifiee_allNotified (n : Notifiee) :
    ∀ t : Transformer, Transformer.allNotified n (Transformer.SetNotifiee n t) = true
  | .mk i nf ts => by
      simp [Transformer.SetNotifiee, Transformer.allNotified,
        setNotifieeList_allNotified n ts]

theorem setNotifieeList_allNotified (n : Notifiee) :
    ∀ ts : List Transformer,
      Transformer.allNotifiedList n (Transformer.SetNotifieeList n ts) = true
  | [] => rfl
  | t :: ts => by
      simp [Transformer.SetNotifieeList, Transformer.allNotifiedList,
        setNotifiee_allNotified n t, setNotifieeList_allNotified n ts]

end

mutual

theorem setNotifiee_notifiedCount (n : Notifiee) :
    ∀ t : Transformer,
      Transformer.notifiedCount n (Transformer.SetNotifiee n t) = Transformer.stageCount t
  | .mk i nf ts => by
      simp [Transformer.SetNotifiee, Transformer.notifiedCount, Transformer.stageCount,
        setNotifieeList_notifiedCount n ts]

theorem setNotifieeList_notifiedCount (n : Notifiee) :
    ∀ ts : List Transformer,
      Transformer.notifiedCountList n (Transformer.SetNotifieeList n ts) =
        Transformer.stageCountList ts
  | [] => rfl
  | t :: ts => by
      simp [Transformer.SetNotifieeList, Transformer.notifiedCountList,
        Transformer.stageCountList, setNotifiee_notifiedCount n t,
        setNotifieeList_notifiedCount n ts]

end

mutual

theorem setNotifiee_stageIDs (n : Notifiee) :
    ∀ t : Transformer, Transformer.stageIDs (Transformer.SetNotifiee n t) = Transformer.stageIDs t
  | .mk i nf ts => by
      simp [Transformer.SetNotifiee, Transformer.stageIDs, setNotifieeList_stageIDs n ts]

theorem setNotifieeList_stageIDs (n : Notifiee) :
    ∀ ts : List Transformer,
      Transformer.stageIDsList (Transformer.SetNotifieeList n ts) =
        Transformer.stageIDsList ts
  | [] => rfl
  | t :: ts => by
      simp [Transformer.SetNotifieeList, Transformer.stageIDsList,
        setNotifiee_stageIDs n t, setNotifieeList_stageIDs n ts]

end

/-- C9: `BaseFetcher.SetNotifiee` records the sink on the fetcher itself and
    propagates it recursively through every transitively owned transformer
    stage, reaching every transitive stage exactly once: afterwards every
    stage holds the sink, the number of sink-holding stages equals the
    original total stage count (no stage is visited twice or skipped), and
    the stage tree itself (its preorder identifiers) is unchanged. -/
theorem baseFetcher_setNotifiee_reaches_all (f : BaseFetcher) (n : Notifiee) :
    (f.SetNotifiee n).notifiee = some n ∧
    Transformer.allNotifiedList n (f.SetNotifiee n).Transformers = true ∧
    Transformer.notifiedCountList n (f.SetNotifiee n).Transformers =
      Transformer.stageCountList f.Transformers ∧
    Transformer.stageIDsList (f.SetNotifiee n).Transformers =
      Transformer.stageIDsList f.Transformers :=
  ⟨rfl, setNotifieeList_allNotified n f.Transformers,
   setNotifieeList_notifiedCount n f.Transformers,
   setNotifieeList_stageIDs n f.Transformers⟩

/-! ## Claim theorems: JobSpecsController -/

/-- C5: a V1 creation request for a spec with a flux-monitor initiator,
    while dev mode and the flux-monitor flag are off, fails with status 501
    regardless of the validator (the gate is checked before validation);
    501 is distinguishable from the 400 used for validation failures; and
    once dev mode or the flag is enabled the same request passes the gate
    and succeeds when validation passes. -/
theorem jobSpec_feature_gate (cfg : Config) (js : JobSpec)
    (hmem : InitiatorType.fluxMonitor ∈ js.Initiators)
    (hdev : cfg.Dev = false) (hflag : cfg.FeatureFluxMonitor = false) :
    (∀ validate, (getAndCheckJobSpec cfg (.ok js) validate).2.1 = 501 ∧
      (getAndCheckJobSpec cfg (.ok js) validate).2.2.isSome) ∧
    (∀ v1 v2, getAndCheckJobSpec cfg (.ok js) v1 = getAndCheckJobSpec cfg (.ok js) v2) ∧
    (∀ cfg' : Config, cfg'.Dev = true ∨ cfg'.FeatureFluxMonitor = true →
      requireImplemented cfg' js = none ∧
      ∀ validate, validate js = none →
        getAndCheckJobSpec cfg' (.ok js) validate = (js, 0, none)) ∧
    (∀ (js' : JobSpec) (validate : JobSpec → Option GoError) (e : GoError),
      requireImplemented cfg js' = none → validate js' = some e →
        (getAndCheckJobSpec cfg (.ok js') validate).2.1 = 400) ∧
    (501 : Nat) ≠ 400 := by
  have hproj : 0 < (js.InitiatorsFor .fluxMonitor).length := by
    have hmemf : InitiatorType.fluxMonitor ∈ js.InitiatorsFor .fluxMonitor :=
      List.mem_filter.mpr ⟨hmem, by decide⟩
    exact List.length_pos.mpr (List.ne_nil_of_mem hmemf)
  have hgate : requireImplemented cfg js =
      some (.base "The Flux Monitor feature is disabled by configuration") := by
    unfold requireImplemented
    rw [hdev, hflag]
    simp [hproj]
  refine ⟨?_, ?_, ?_, ?_, by decide⟩
  · intro validate
    simp [getAndCheckJobSpec, hgate]
  · intro v1 v2
    simp [getAndCheckJobSpec, hgate]
  · intro cfg' h'
    have hnone : requireImplemented cfg' js = none := by
      unfold requireImplemented
      rcases h' with h' | h' <;> simp [h']
    exact ⟨hnone, fun validate hval => by simp [getAndCheckJobSpec, hnone, hval]⟩
  · intro js' validate e hnone hval
    simp [getAndCheckJobSpec, hnone, hval]

/-- C5 witness: the concrete gated request. -/
theorem jobSpec_feature_gate_witness :
    InitiatorType.fluxMonitor ∈ [InitiatorType.fluxMonitor] ∧
    (getAndCheckJobSpec ⟨false, false, false⟩ (.ok ⟨[.fluxMonitor]⟩)
      (fun _ => none)).2.1 = 501 :=
  ⟨by decide,
   ((jobSpec_feature_gate ⟨false, false, false⟩ ⟨[.fluxMonitor]⟩ (by decide) rfl rfl).1
     (fun _ => none)).1⟩

/-- C6: V1 `Destroy` and V2 `DestroyV2` map a store outcome whose cause is
    `orm.ErrorNotFound` (a nonexistent target ID) to the specific 404
    response, any other store error to the generic 500 response — two
    always-distinct outcomes — and deletion of an existing ID to a bodiless
    204 success. -/
theorem jobSpec_delete_not_found (store1 : List Nat) (idN : Nat)
    (store2 : List Int) (idZ : Int) :
    (idN ∉ store1 →
      Destroy (.ok idN) (ArchiveJob store1) = .apiError 404 (.base "JobSpec not found")) ∧
    (idN ∈ store1 → Destroy (.ok idN) (ArchiveJob store1) = .success 204) ∧
    (idZ ∉ store2 →
      DestroyV2 (.ok idZ) (DeleteJobV2 store2) = .apiError 404 (.base "JobSpec not found")) ∧
    (idZ ∈ store2 → DestroyV2 (.ok idZ) (DeleteJobV2 store2) = .success 204) ∧
    (∀ (arch : Nat → Option GoError) (e : GoError), arch idN = some e →
      e.cause ≠ ErrorNotFound → Destroy (.ok idN) arch = .apiError 500 e) ∧
    (∀ (del : Int → Option GoError) (e : GoError), del idZ = some e →
      e.cause ≠ ErrorNotFound → DestroyV2 (.ok idZ) del = .apiError 500 e) ∧
    (∀ e e' : GoError, ControllerResponse.apiError 404 e ≠ .apiError 500 e') := by
  refine ⟨?_, ?_, ?_, ?_, ?_, ?_, ?_⟩
  · intro h
    simp [Destroy, ArchiveJob, h, GoError.cause, ErrorNotFound]
  · intro h
    simp [Destroy, ArchiveJob, h]
  · intro h
    simp [DestroyV2, DeleteJobV2, h, GoError.cause, ErrorNotFound]
  · intro h
    simp [DestroyV2, DeleteJobV2, h]
  · intro arch e he hc
    simp [Destroy, he, hc]
  · intro del e he hc
    simp [DestroyV2, he, hc]
  · intro e e'
    simp

/-- C6 witness: concrete missing, present and generic-failure deletions. -/
theorem jobSpec_delete_not_found_witness :
    (0 : Nat) ∉ ([] : List Nat) ∧
    Destroy (.ok 0) (ArchiveJob []) = .apiError 404 (.base "JobSpec not found") ∧
    (0 : Nat) ∈ [0] ∧
    Destroy (.ok 0) (ArchiveJob [0]) = .success 204 ∧
    (GoError.base "disk failure").cause ≠ ErrorNotFound ∧
    Destroy (.ok 0) (fun _ => some (.base "disk failure")) =
      .apiError 500 (.base "disk failure") :=
  ⟨by decide,
   (jobSpec_delete_not_found [] 0 [] 0).1 (by decide),
   by decide,
   (jobSpec_delete_not_found [0] 0 [] 0).2.1 (by decide),
   by decide,
   (jobSpec_delete_not_found [] 0 [] 0).2.2.2.2.1
     (fun _ => some (.base "disk failure")) (.base "disk failure") rfl (by decide)⟩
